import Mathlib

/-!
Verification of the resilience and credential-lifecycle core of the alfred2
repository: token refresh coalescing (`getValidAccessToken`), the authenticated
call wrapper (`handleGraphApiCall`), retry backoff (`executeWithRetry`), TTL
caches, timezone conversion tables, and debug cache introspection.

Each definition is a shallow embedding of the corresponding JavaScript source
function; remote I/O outcomes (database loads, token endpoint responses,
fetch results) are passed in explicitly as parameters.
-/

/-- Does the first char list start with the second? -/
def charsStartWith : List Char → List Char → Bool
  | _, [] => true
  | [], _ :: _ => false
  | c :: cs, d :: ds => c == d && charsStartWith cs ds

/-- Does the first char list contain the second as a contiguous run? -/
def charsContain : List Char → List Char → Bool
  | [], sub => charsStartWith [] sub
  | c :: rest, sub => charsStartWith (c :: rest) sub || charsContain rest sub

/-- JavaScript `s.includes(sub)` for strings. -/
def containsSubstr (s sub : String) : Bool :=
  charsContain s.data sub.data

/-! ## Error shape shared by the Graph wrapper and the retry utility

Heterogeneous JS error objects are modelled by their inspected fields:
`statusCode`, `code`, `message`, and the nested `body.error.code`. -/

structure GraphError where
  statusCode : Option Nat
  code : Option String
  message : Option String
  bodyErrorCode : Option String
deriving DecidableEq, Repr

/-- The 401 detection of `handleGraphApiCall` (part_001 lines 321-324):
`error.statusCode === 401 || error.code === 'InvalidAuthenticationToken' ||
error.message?.includes('Access token has expired') ||
error.message?.includes('Unauthorized')`. -/
def is401 (e : GraphError) : Bool :=
  e.statusCode == some 401
  || e.code == some "InvalidAuthenticationToken"
  || (match e.message with
      | some m => containsSubstr m "Access token has expired" || containsSubstr m "Unauthorized"
      | none => false)

/-- `handleGraphApiCall` (part_001 lines 301-344), with `MAX_RETRIES = 2`.
`calls` is the stream of outcomes of successive `apiCall()` invocations and
`refreshes` the stream of outcomes of the forced `getValidAccessToken(id, true)`
calls issued on 401 recovery.  Returns the surfaced result together with the
number of forced token refreshes performed.  An exhausted stream (never reached
at the depths the source can recurse to) surfaces the placeholder error. -/
def handleGraphApiCall (calls : List (Except GraphError String))
    (refreshes : List (Except GraphError Unit)) (retryCount : Nat) :
    Except GraphError String × Nat :=
  match calls with
  | [] => (Except.error ⟨none, none, some "stream exhausted", none⟩, 0)
  | c :: rest =>
    match c with
    | Except.ok v => (Except.ok v, 0)
    | Except.error e =>
      if is401 e && retryCount < 2 then
        match refreshes with
        | [] => (Except.error e, 0)
        | r :: rrest =>
          match r with
          | Except.error re => (Except.error re, 1)
          | Except.ok _ =>
            let res := handleGraphApiCall rest rrest (retryCount + 1)
            (res.1, res.2 + 1)
      else (Except.error e, 0)

/-! ## Retry utility (`graphRetry.js`, reproduced in MIGRATION_VALIDATION_PLAN.md) -/

/-- `DEFAULT_CONFIG.retryableStatusCodes`. -/
def defaultRetryableStatusCodes : List Nat := [429, 503, 504]

/-- `DEFAULT_CONFIG.retryableErrorCodes`. -/
def defaultRetryableErrorCodes : List String :=
  ["TooManyRequests", "ServiceUnavailable", "GatewayTimeout", "InternalServerError"]

/-- `isRetryableError` from the retry utility: status code, Graph error code,
or nested `body.error.code` membership in the configured retryable sets. -/
def isRetryableError (e : GraphError) (retryableStatusCodes : List Nat)
    (retryableErrorCodes : List String) : Bool :=
  (match e.statusCode with
   | some s => retryableStatusCodes.contains s
   | none => false)
  || (match e.code with
      | some c => retryableErrorCodes.contains c
      | none => false)
  || (match e.bodyErrorCode with
      | some c => retryableErrorCodes.contains c
      | none => false)

/-- The `Retry-After` header value after the `parseInt` / `new Date` probing in
`getRetryAfterSeconds`: absent, an integer number of seconds, or an HTTP date
(given by its epoch-milliseconds instant). -/
inductive RetryAfterHeader where
  | missing
  | seconds (n : Nat)
  | httpDate (t : Int)
deriving DecidableEq, Repr

/-- Integer ceiling division (`Math.ceil(a / b)` for integer `a`, positive `b`). -/
def ceilDiv (a b : Int) : Int :=
  -(Int.fdiv (-a) b)

/-- `getRetryAfterSeconds`: a numeric header is the wait in seconds; an HTTP
date becomes `Math.max(0, Math.ceil((date - Date.now()) / 1000))`. -/
def getRetryAfterSeconds (h : RetryAfterHeader) (now : Int) : Option Int :=
  match h with
  | RetryAfterHeader.missing => none
  | RetryAfterHeader.seconds n => some n
  | RetryAfterHeader.httpDate t => some (max 0 (ceilDiv (t - now) 1000))

/-- `calculateBackoffDelay`: `min(baseDelay * 2^(attempt-1), maxDelay)` plus
jitter `Math.random() * jitterMax`, with the random draw `r ∈ [0, 1)` made
explicit. -/
def calculateBackoffDelay (attempt : Nat) (baseDelay maxDelay jitterMax r : ℚ) : ℚ :=
  min (baseDelay * 2 ^ (attempt - 1)) maxDelay + r * jitterMax

/-- The delay computation inside `executeWithRetry` for a retryable failure:
the Retry-After hint times 1000 ms when present, else exponential backoff. -/
def executeWithRetryDelay (h : RetryAfterHeader) (now : Int) (attempt : Nat)
    (baseDelay maxDelay jitterMax r : ℚ) : ℚ :=
  match getRetryAfterSeconds h now with
  | some s => (s : ℚ) * 1000
  | none => calculateBackoffDelay attempt baseDelay maxDelay jitterMax r

/-! ## Token refresh (`src/config/microsoft.js`) and the two `getValidAccessToken`s -/

/-- A token-endpoint HTTP exchange outcome: a successful JSON body, an HTTP
error body (`error`, optional `error_description`), or a network-level failure. -/
inductive TokenEndpointResult where
  | ok (access_token : String) (refresh_token : Option String) (expires_in : Int)
  | httpError (error : String) (error_description : Option String)
  | networkError (msg : String)
deriving DecidableEq, Repr

/-- The object returned by a successful `refreshAccessToken`. -/
structure RefreshedTokens where
  access_token : String
  refresh_token : String
  expires_in : Int
deriving DecidableEq, Repr

/-- `refreshAccessToken` (microsoft.js lines 252-318): on a non-ok HTTP
response throws `Microsoft token refresh failed: ${error_description || error}`;
on success returns the new tokens with
`refresh_token: data.refresh_token || refreshToken` (JS falsiness: an absent or
empty `refresh_token` falls back to the stored one). -/
def refreshAccessToken (storedRefreshToken : String) (resp : TokenEndpointResult) :
    Except String RefreshedTokens :=
  match resp with
  | TokenEndpointResult.ok at_ rt exp_ =>
    Except.ok
      { access_token := at_
        refresh_token :=
          match rt with
          | some r => if r = "" then storedRefreshToken else r
          | none => storedRefreshToken
        expires_in := exp_ }
  | TokenEndpointResult.httpError err desc =>
    Except.error ("Microsoft token refresh failed: " ++
      (match desc with
       | some d => if d = "" then err else d
       | none => err))
  | TokenEndpointResult.networkError m => Except.error m

/-- Modelled from the spec: `src/utils/tokenExpiry.js` is not in the source
tree.  Per the spec (§6) and the `expiry_date` computation in `microsoft.js`,
the persisted expiry is `now + expires_in × 1000` milliseconds. -/
def determineExpiryDate (now expiresIn : Int) : Int :=
  now + expiresIn * 1000

/-- A stored credential record (the fields `getValidAccessToken` reads/writes). -/
structure UserRecord where
  accessToken : String
  refreshToken : String
  tokenExpiry : Int
deriving DecidableEq, Repr

/-- `getValidAccessToken` of the Graph service (part_001 lines 204-277), for a
single caller.  `user` is the database load result, `tokenExpired` the value of
`isTokenExpired(user.tokenExpiry)`, `touch` the outcome of the awaited
`updateLastUsed` on the cached path, and `resp` the token endpoint exchange.
Returns the surfaced result, the credential record afterwards, and the number
of network token-refresh requests issued.  On the cached path `updateLastUsed`
is awaited and its failure propagates through the outer catch (which rethrows);
a refresh failure whose message includes `invalid_grant` or `refresh token`
becomes the terminal `REFRESH_TOKEN_EXPIRED` error, any other failure is
rethrown unchanged, and the refresh is never retried. -/
def graphGetValidAccessToken (microsoftId : String) (user : Option UserRecord)
    (forceRefresh tokenExpired : Bool) (touch : Except String Unit)
    (resp : TokenEndpointResult) (now : Int) :
    Except String String × Option UserRecord × Nat :=
  match user with
  | none => (Except.error ("User not found for Microsoft ID: " ++ microsoftId), none, 0)
  | some u =>
    if !(forceRefresh || tokenExpired) then
      match touch with
      | Except.error e => (Except.error e, some u, 0)
      | Except.ok _ => (Except.ok u.accessToken, some u, 0)
    else
      match refreshAccessToken u.refreshToken resp with
      | Except.ok toks =>
        (Except.ok toks.access_token,
         some { accessToken := toks.access_token
                refreshToken := toks.refresh_token
                tokenExpiry := determineExpiryDate now toks.expires_in }, 1)
      | Except.error msg =>
        if containsSubstr msg "invalid_grant" || containsSubstr msg "refresh token" then
          (Except.error "REFRESH_TOKEN_EXPIRED: User must re-authenticate", some u, 1)
        else (Except.error msg, some u, 1)

/-- Modelled from the spec: `src/services/serviceErrors.js` is not in the
source tree.  Its `throwServiceError(message, opts)` raises an error carrying
the given message, HTTP status code, machine code and `requiresReauth` flag
(the spec's terminal `ReauthRequired` marker). -/
structure ServiceError where
  message : String
  statusCode : Nat
  code : String
  requiresReauth : Bool
deriving DecidableEq, Repr

/-- `getValidAccessToken` of the tasks service (tasksService.js lines 22-84).
`updateLastUsed` is fire-and-forget there
(`updateLastUsed(id).catch(err => console.error(...))`), so its outcome does
not influence the result; every refresh failure is converted to the terminal
401 `MICROSOFT_UNAUTHORIZED` error with `requiresReauth: true`. -/
def tasksGetValidAccessToken (user : Option UserRecord) (tokenExpired : Bool)
    (_touch : Except String Unit) (resp : TokenEndpointResult) (now : Int) :
    Except ServiceError String × Option UserRecord × Nat :=
  match user with
  | none =>
    (Except.error
      { message := "User not found in database"
        statusCode := 401
        code := "TASKS_USER_NOT_FOUND"
        requiresReauth := true }, none, 0)
  | some u =>
    if tokenExpired then
      match refreshAccessToken u.refreshToken resp with
      | Except.ok toks =>
        (Except.ok toks.access_token,
         some { accessToken := toks.access_token
                refreshToken := if toks.refresh_token = "" then u.refreshToken
                                else toks.refresh_token
                tokenExpiry := determineExpiryDate now toks.expires_in }, 1)
      | Except.error _ =>
        (Except.error
          { message := "Authentication required - please log in again"
            statusCode := 401
            code := "MICROSOFT_UNAUTHORIZED"
            requiresReauth := true }, some u, 1)
    else (Except.ok u.accessToken, some u, 0)

/-! ## Concurrency model of `getValidAccessToken` for one identity

Node's event loop is single-threaded: each caller executes atomically between
`await` suspension points.  For a caller of `getValidAccessToken` with an
expired token, the source has these atomic segments:
1. `start`: the `activeRefreshes.has(id)` check; if an in-flight entry exists
   the caller awaits it (coalesces), otherwise it begins
   `await getUserByMicrosoftId(id)` and suspends — *without* having registered
   anything in the map;
2. `loaded`: the DB load resolved; the caller creates the refresh promise
   (starting the network token-refresh request) and runs
   `activeRefreshes.set(id, refreshPromise)` in the same tick;
3. `registered`: the refresh completed and the `finally` block runs
   `activeRefreshes.delete(id)`. -/
inductive CallerPC where
  | start
  | loaded
  | registered
  | doneCoalesced
  | doneRefreshed
deriving DecidableEq, Repr

/-- Global state for one identity: whether `activeRefreshes` holds an entry,
how many network token-refresh requests have been issued, and each caller's
program counter. -/
structure RefreshSystem where
  inFlight : Bool
  networkRefreshes : Nat
  pcs : List CallerPC
deriving DecidableEq, Repr

/-- One atomic segment of caller `tid`, per the source's suspension points. -/
def refreshStep (s : RefreshSystem) (tid : Nat) : RefreshSystem :=
  match s.pcs[tid]? with
  | none => s
  | some pc =>
    match pc with
    | CallerPC.start =>
      if s.inFlight then { s with pcs := s.pcs.set tid CallerPC.doneCoalesced }
      else { s with pcs := s.pcs.set tid CallerPC.loaded }
    | CallerPC.loaded =>
      { inFlight := true
        networkRefreshes := s.networkRefreshes + 1
        pcs := s.pcs.set tid CallerPC.registered }
    | CallerPC.registered =>
      { s with inFlight := false, pcs := s.pcs.set tid CallerPC.doneRefreshed }
    | CallerPC.doneCoalesced => s
    | CallerPC.doneRefreshed => s

/-- Run a schedule (a list of caller ids, each entry one atomic segment). -/
def runSchedule (s : RefreshSystem) (sched : List Nat) : RefreshSystem :=
  sched.foldl refreshStep s

/-! ## Timezone converter (`timezoneConverter.js`, reproduced in
MIGRATION_VALIDATION_PLAN.md lines 1786-2002) -/

/-- The `ianaToWindowsMap` object literal, in source order (its keys are
pairwise distinct, so `List.lookup` matches JS property lookup). -/
def ianaToWindowsMap : List (String × String) := [
  ("Europe/Prague", "Central Europe Standard Time"),
  ("Europe/Berlin", "W. Europe Standard Time"),
  ("Europe/Paris", "Romance Standard Time"),
  ("Europe/Rome", "W. Europe Standard Time"),
  ("Europe/London", "GMT Standard Time"),
  ("Europe/Amsterdam", "W. Europe Standard Time"),
  ("Europe/Brussels", "Romance Standard Time"),
  ("Europe/Vienna", "W. Europe Standard Time"),
  ("Europe/Warsaw", "Central European Standard Time"),
  ("Europe/Budapest", "Central Europe Standard Time"),
  ("Europe/Athens", "GTB Standard Time"),
  ("Europe/Istanbul", "Turkey Standard Time"),
  ("Europe/Moscow", "Russian Standard Time"),
  ("Europe/Kiev", "FLE Standard Time"),
  ("Europe/Bucharest", "GTB Standard Time"),
  ("Europe/Sofia", "FLE Standard Time"),
  ("Europe/Helsinki", "FLE Standard Time"),
  ("Europe/Stockholm", "W. Europe Standard Time"),
  ("Europe/Copenhagen", "Romance Standard Time"),
  ("Europe/Oslo", "W. Europe Standard Time"),
  ("Europe/Lisbon", "GMT Standard Time"),
  ("Europe/Madrid", "Romance Standard Time"),
  ("Europe/Zurich", "W. Europe Standard Time"),
  ("Europe/Dublin", "GMT Standard Time"),
  ("America/New_York", "Eastern Standard Time"),
  ("America/Chicago", "Central Standard Time"),
  ("America/Denver", "Mountain Standard Time"),
  ("America/Los_Angeles", "Pacific Standard Time"),
  ("America/Phoenix", "US Mountain Standard Time"),
  ("America/Anchorage", "Alaskan Standard Time"),
  ("America/Honolulu", "Hawaiian Standard Time"),
  ("America/Toronto", "Eastern Standard Time"),
  ("America/Vancouver", "Pacific Standard Time"),
  ("America/Edmonton", "Mountain Standard Time"),
  ("America/Winnipeg", "Central Standard Time"),
  ("America/Halifax", "Atlantic Standard Time"),
  ("America/St_Johns", "Newfoundland Standard Time"),
  ("America/Mexico_City", "Central Standard Time (Mexico)"),
  ("America/Cancun", "Eastern Standard Time (Mexico)"),
  ("America/Tijuana", "Pacific Standard Time (Mexico)"),
  ("America/Guatemala", "Central America Standard Time"),
  ("America/San_Jose", "Central America Standard Time"),
  ("America/Panama", "SA Pacific Standard Time"),
  ("America/Havana", "Cuba Standard Time"),
  ("America/Port-au-Prince", "Haiti Standard Time"),
  ("America/Santo_Domingo", "SA Western Standard Time"),
  ("America/Sao_Paulo", "E. South America Standard Time"),
  ("America/Buenos_Aires", "Argentina Standard Time"),
  ("America/Bogota", "SA Pacific Standard Time"),
  ("America/Lima", "SA Pacific Standard Time"),
  ("America/Santiago", "Pacific SA Standard Time"),
  ("America/Caracas", "Venezuela Standard Time"),
  ("America/La_Paz", "SA Western Standard Time"),
  ("America/Montevideo", "Montevideo Standard Time"),
  ("Asia/Tokyo", "Tokyo Standard Time"),
  ("Asia/Seoul", "Korea Standard Time"),
  ("Asia/Shanghai", "China Standard Time"),
  ("Asia/Hong_Kong", "China Standard Time"),
  ("Asia/Taipei", "Taipei Standard Time"),
  ("Asia/Beijing", "China Standard Time"),
  ("Asia/Singapore", "Singapore Standard Time"),
  ("Asia/Bangkok", "SE Asia Standard Time"),
  ("Asia/Jakarta", "SE Asia Standard Time"),
  ("Asia/Manila", "Singapore Standard Time"),
  ("Asia/Ho_Chi_Minh", "SE Asia Standard Time"),
  ("Asia/Kuala_Lumpur", "Singapore Standard Time"),
  ("Asia/Kolkata", "India Standard Time"),
  ("Asia/Mumbai", "India Standard Time"),
  ("Asia/Dhaka", "Bangladesh Standard Time"),
  ("Asia/Karachi", "Pakistan Standard Time"),
  ("Asia/Colombo", "Sri Lanka Standard Time"),
  ("Asia/Kathmandu", "Nepal Standard Time"),
  ("Asia/Almaty", "Central Asia Standard Time"),
  ("Asia/Tashkent", "West Asia Standard Time"),
  ("Asia/Yekaterinburg", "Ekaterinburg Standard Time"),
  ("Asia/Dubai", "Arabian Standard Time"),
  ("Asia/Riyadh", "Arab Standard Time"),
  ("Asia/Kuwait", "Arab Standard Time"),
  ("Asia/Doha", "Arab Standard Time"),
  ("Asia/Muscat", "Arabian Standard Time"),
  ("Asia/Bahrain", "Arab Standard Time"),
  ("Asia/Tehran", "Iran Standard Time"),
  ("Asia/Baghdad", "Arabic Standard Time"),
  ("Asia/Jerusalem", "Israel Standard Time"),
  ("Asia/Beirut", "Middle East Standard Time"),
  ("Asia/Damascus", "Syria Standard Time"),
  ("Asia/Amman", "Jordan Standard Time"),
  ("Australia/Sydney", "AUS Eastern Standard Time"),
  ("Australia/Melbourne", "AUS Eastern Standard Time"),
  ("Australia/Brisbane", "E. Australia Standard Time"),
  ("Australia/Perth", "W. Australia Standard Time"),
  ("Australia/Adelaide", "Cen. Australia Standard Time"),
  ("Australia/Darwin", "AUS Central Standard Time"),
  ("Australia/Hobart", "Tasmania Standard Time"),
  ("Pacific/Auckland", "New Zealand Standard Time"),
  ("Pacific/Fiji", "Fiji Standard Time"),
  ("Pacific/Honolulu", "Hawaiian Standard Time"),
  ("Pacific/Guam", "West Pacific Standard Time"),
  ("Pacific/Port_Moresby", "West Pacific Standard Time"),
  ("Pacific/Tongatapu", "Tonga Standard Time"),
  ("Africa/Cairo", "Egypt Standard Time"),
  ("Africa/Johannesburg", "South Africa Standard Time"),
  ("Africa/Nairobi", "E. Africa Standard Time"),
  ("Africa/Lagos", "W. Central Africa Standard Time"),
  ("Africa/Casablanca", "Morocco Standard Time"),
  ("Atlantic/Reykjavik", "Greenwich Standard Time"),
  ("Atlantic/Azores", "Azores Standard Time"),
  ("Atlantic/Cape_Verde", "Cape Verde Standard Time"),
  ("UTC", "UTC"),
  ("Etc/UTC", "UTC"),
  ("Etc/GMT", "UTC"),
  ("GMT", "UTC")]

/-- `convertIANAToWindows`: empty or unknown input falls back to `"UTC"`. -/
def convertIANAToWindows (ianaTimezone : String) : String :=
  if ianaTimezone = "" then "UTC"
  else
    match ianaToWindowsMap.lookup ianaTimezone with
    | some w => w
    | none => "UTC"

/-- The reverse map built inside `convertWindowsToIANA`: iterate
`Object.entries(ianaToWindowsMap)` in order and keep only the first IANA name
seen for each Windows name (`if (!reverseMap[windows]) reverseMap[windows] = iana`). -/
def windowsToIANAMap : List (String × String) :=
  ianaToWindowsMap.foldl
    (fun acc p => if (acc.lookup p.2).isSome then acc else acc ++ [(p.2, p.1)]) []

/-- `convertWindowsToIANA`: the primary IANA name for a Windows name; empty or
unknown input falls back to `"UTC"`. -/
def convertWindowsToIANA (windowsTimezone : String) : String :=
  if windowsTimezone = "" then "UTC"
  else
    match windowsToIANAMap.lookup windowsTimezone with
    | some i => i
    | none => "UTC"

/-! ## TTL caches (folder directory / user addresses, part_001) -/

/-- `FOLDER_CACHE_TTL_MS = 5 * 60 * 1000` (the user-address cache uses the
same value). -/
def FOLDER_CACHE_TTL_MS : Int := 5 * 60 * 1000

/-- A cached folder-directory entry: payload plus creation timestamp. -/
structure FolderCacheEntry where
  folders : List String
  timestamp : Int
deriving DecidableEq, Repr

/-- The freshness test `(Date.now() - cached.timestamp) < TTL`. -/
def cacheFresh (timestamp now ttlMs : Int) : Bool :=
  now - timestamp < ttlMs

/-- The cache probe at the top of `listLabels` (part_001 lines 1274-1277):
`const cached = folderDirectoryCache.get(id); if (cached && (Date.now() -
cached.timestamp) < FOLDER_CACHE_TTL_MS) return cached.folders;`. -/
def listLabelsCacheRead (cache : List (String × FolderCacheEntry)) (id : String)
    (now : Int) : Option (List String) :=
  match cache.lookup id with
  | some c => if cacheFresh c.timestamp now FOLDER_CACHE_TTL_MS then some c.folders else none
  | none => none

/-- `Map.set` semantics: overwrite the entry for `id`, or append it. -/
def cacheSet (cache : List (String × FolderCacheEntry)) (id : String)
    (e : FolderCacheEntry) : List (String × FolderCacheEntry) :=
  if (cache.lookup id).isSome then
    cache.map (fun p => if p.1 = id then (id, e) else p)
  else cache ++ [(id, e)]

/-- One `listLabels` call: on a fresh cache entry return it (cache untouched);
on a miss perform the remote fetch, and only a successful fetch overwrites the
entry via `set` — an expired entry is never eagerly evicted by the read. -/
def listLabelsStep (cache : List (String × FolderCacheEntry)) (id : String)
    (now : Int) (fetch : Except String (List String)) :
    Except String (List String) × List (String × FolderCacheEntry) :=
  match listLabelsCacheRead cache id now with
  | some folders => (Except.ok folders, cache)
  | none =>
    match fetch with
    | Except.ok fs => (Except.ok fs, cacheSet cache id ⟨fs, now⟩)
    | Except.error e => (Except.error e, cache)

/-! ## Debug cache helpers (part_001 lines 83-177) -/

/-- `maskDebugKey` on string keys (keys are JS strings, modelled as char
lists): keys of length ≤ 6 are returned unchanged, longer keys become
`key.slice(0, 3) + '…' + key.slice(-2)`. -/
def maskDebugKey (key : List Char) : List Char :=
  if key.length ≤ 6 then key
  else key.take 3 ++ ['…'] ++ key.drop (key.length - 2)

/-- The key-visible part of `getDebugDiagnostics`: the in-flight map's keys and
both caches' entry keys, each passed through `maskDebugKey`.  (The age sort and
the 20-entry slice of `summarizeCacheEntries` only select which entries are
shown; they do not change how a shown key is masked.) -/
structure DebugDiagnostics where
  activeUsers : List (List Char)
  folderKeys : List (List Char)
  addressKeys : List (List Char)
deriving DecidableEq, Repr

/-- `getDebugDiagnostics` restricted to the reported keys. -/
def getDebugDiagnostics (active folderKeys addrKeys : List (List Char)) :
    DebugDiagnostics :=
  { activeUsers := active.map maskDebugKey
    folderKeys := folderKeys.map maskDebugKey
    addressKeys := addrKeys.map maskDebugKey }

/-- JavaScript `String(target).toLowerCase()` for the ASCII target names
involved, as a character-wise lowercase map. -/
def jsToLower (s : String) : String :=
  String.mk (s.data.map Char.toLower)

/-- The recognized-target filter of `flushDebugCaches`: lowercase every target
and keep only `'folders'` and `'addresses'`. -/
def recognizedTargets (targets : List String) : List String :=
  (targets.map jsToLower).filter (fun t => t = "folders" || t = "addresses")

/-- The result of `flushDebugCaches`: per-cache former sizes (reported only
for cleared caches) and the caches afterwards. -/
structure FlushResult where
  clearedFolders : Option Nat
  clearedAddresses : Option Nat
  newFolderCache : List (String × FolderCacheEntry)
  newAddrCache : List (String × FolderCacheEntry)
  targets : List String
deriving DecidableEq, Repr

/-- `flushDebugCaches` (part_001 lines 145-177): if no recognized target
remains after filtering (absent, empty, or all unrecognized), both caches are
flushed; otherwise exactly the named caches are cleared, reporting each cleared
cache's former size. -/
def flushDebugCaches (targets : List String)
    (folderCache addrCache : List (String × FolderCacheEntry)) : FlushResult :=
  let filtered := recognizedTargets targets
  let hasFolders := if filtered.isEmpty then true else filtered.contains "folders"
  let hasAddresses := if filtered.isEmpty then true else filtered.contains "addresses"
  { clearedFolders := if hasFolders then some folderCache.length else none
    clearedAddresses := if hasAddresses then some addrCache.length else none
    newFolderCache := if hasFolders then [] else folderCache
    newAddrCache := if hasAddresses then [] else addrCache
    targets := if filtered.isEmpty then ["folders", "addresses"] else filtered.eraseDups }

/-! ## Theorems -/

/-- C1: the claim says N concurrent `getValidAccessToken` calls against an
expired token issue exactly one network refresh.  The source checks
`activeRefreshes.has(id)` *before* `await getUserByMicrosoftId(id)` and only
registers the in-flight entry after that await resolves, so two callers that
both pass the check before either registers each issue a network refresh: the
schedule [0, 1, 0, 1, 0, 1] (both callers check, then both register+refresh)
produces 2 network token-refresh requests, not 1.  The second conjunct shows
the intended coalescing does work when the second caller's check happens after
the first caller registered. -/
theorem getValidAccessToken_coalescing_race :
    (runSchedule ⟨false, 0, [CallerPC.start, CallerPC.start]⟩ [0, 1, 0, 1, 0, 1]).networkRefreshes = 2
    ∧ (runSchedule ⟨false, 0, [CallerPC.start, CallerPC.start]⟩ [0, 0, 1]).networkRefreshes = 1 := by
  exact ⟨rfl, rfl⟩

/-- C8: a TTL cache entry stored at time `T` is a hit at `T + TTL - 1`, a miss
at `T + TTL` and `T + TTL + 1`; in general a read at `now` hits iff
`now < T + TTL`; and a miss-read never evicts the expired entry (a failing
refetch leaves the cache unchanged, entry included). -/
theorem ttl_cache_lazy_expiry (id : String) (fs : List String) (T : Int) :
    listLabelsCacheRead [(id, ⟨fs, T⟩)] id (T + FOLDER_CACHE_TTL_MS - 1) = some fs
    ∧ listLabelsCacheRead [(id, ⟨fs, T⟩)] id (T + FOLDER_CACHE_TTL_MS) = none
    ∧ listLabelsCacheRead [(id, ⟨fs, T⟩)] id (T + FOLDER_CACHE_TTL_MS + 1) = none
    ∧ (∀ now : Int, listLabelsCacheRead [(id, ⟨fs, T⟩)] id now = some fs ↔ now < T + FOLDER_CACHE_TTL_MS)
    ∧ (∀ e : String,
        listLabelsStep [(id, ⟨fs, T⟩)] id (T + FOLDER_CACHE_TTL_MS + 1) (Except.error e)
          = (Except.error e, [(id, ⟨fs, T⟩)])) := by
  have hlook : List.lookup id [(id, (⟨fs, T⟩ : FolderCacheEntry))] = some ⟨fs, T⟩ := by
    simp [List.lookup]
  have hfresh : ∀ now : Int,
      cacheFresh T now FOLDER_CACHE_TTL_MS = true ↔ now < T + FOLDER_CACHE_TTL_MS := by
    intro now
    simp only [cacheFresh, decide_eq_true_eq]
    omega
  refine ⟨?_, ?_, ?_, ?_, ?_⟩
  · have h := (hfresh (T + FOLDER_CACHE_TTL_MS - 1)).mpr (by omega)
    simp [listLabelsCacheRead, hlook, h]
  · have h : cacheFresh T (T + FOLDER_CACHE_TTL_MS) FOLDER_CACHE_TTL_MS = false := by
      rw [Bool.eq_false_iff]
      intro hc
      have := (hfresh _).mp hc
      omega
    simp [listLabelsCacheRead, hlook, h]
  · have h : cacheFresh T (T + FOLDER_CACHE_TTL_MS + 1) FOLDER_CACHE_TTL_MS = false := by
      rw [Bool.eq_false_iff]
      intro hc
      have := (hfresh _).mp hc
      omega
    simp [listLabelsCacheRead, hlook, h]
  · intro now
    cases hb : cacheFresh T now FOLDER_CACHE_TTL_MS with
    | false =>
      simp only [listLabelsCacheRead, hlook, hb, Bool.false_eq_true, if_false]
      constructor
      · intro h; cases h
      · intro h
        exact absurd ((hfresh now).mpr h) (by simp [hb])
    | true =>
      have h2 := (hfresh now).mp hb
      simp [listLabelsCacheRead, hlook, hb, h2]
  · intro e
    have h : cacheFresh T (T + FOLDER_CACHE_TTL_MS + 1) FOLDER_CACHE_TTL_MS = false := by
      rw [Bool.eq_false_iff]
      intro hc
      have := (hfresh _).mp hc
      omega
    simp [listLabelsStep, listLabelsCacheRead, hlook, h]

/-- C9 counterexample: the claim says every key reported by
`getDebugDiagnostics` differs from the complete original identity id, but
`maskDebugKey` returns keys of length ≤ 6 unchanged: an in-flight entry for the
5-character id "user1" is reported verbatim. -/
theorem getDebugDiagnostics_short_key_verbatim :
    (getDebugDiagnostics [['u', 's', 'e', 'r', '1']] [] []).activeUsers
      = [['u', 's', 'e', 'r', '1']] := by
  rfl

/-- C9 (amended): keys longer than 6 characters are masked to
`slice(0,3) + '…' + slice(-2)` (a 6-character value, hence never equal to the
original), while keys of 6 or fewer characters are reported verbatim by
`getDebugDiagnostics` via `maskDebugKey`. -/
theorem maskDebugKey_masks_exactly_long_keys (key : List Char) :
    (key.length ≤ 6 → maskDebugKey key = key)
    ∧ (6 < key.length →
        maskDebugKey key ≠ key
        ∧ (maskDebugKey key).length = 6
        ∧ maskDebugKey key = key.take 3 ++ ['…'] ++ key.drop (key.length - 2)) := by
  constructor
  · intro h
    simp [maskDebugKey, h]
  · intro h
    have hform : maskDebugKey key = key.take 3 ++ ['…'] ++ key.drop (key.length - 2) := by
      unfold maskDebugKey
      rw [if_neg (by omega)]
    have hlen : (maskDebugKey key).length = 6 := by
      rw [hform]
      simp only [List.length_append, List.length_take, List.length_drop,
        List.length_cons, List.length_nil]
      omega
    refine ⟨fun heq => ?_, hlen, hform⟩
    rw [heq] at hlen
    omega

/-- C9 witness: a 3-character key is reported unchanged; a 7-character key is
masked to a value different from the original. -/
theorem maskDebugKey_witness :
    maskDebugKey ['a', 'b', 'c'] = ['a', 'b', 'c']
    ∧ maskDebugKey ['a', 'b', 'c', 'd', 'e', 'f', 'g'] ≠ ['a', 'b', 'c', 'd', 'e', 'f', 'g'] :=
  ⟨(maskDebugKey_masks_exactly_long_keys ['a', 'b', 'c']).1 (by decide),
   ((maskDebugKey_masks_exactly_long_keys ['a', 'b', 'c', 'd', 'e', 'f', 'g']).2 (by decide)).1⟩

/-- C10: `flushDebugCaches` with no recognized target (absent, empty, or only
unrecognized strings) clears both caches and reports their former sizes; with
recognized targets it clears exactly the named caches and leaves the other
untouched. -/
theorem flushDebugCaches_target_selection (targets : List String)
    (fc ac : List (String × FolderCacheEntry)) :
    (recognizedTargets targets = [] →
      flushDebugCaches targets fc ac =
        { clearedFolders := some fc.length
          clearedAddresses := some ac.length
          newFolderCache := []
          newAddrCache := []
          targets := ["folders", "addresses"] })
    ∧ (recognizedTargets targets ≠ [] →
        ((recognizedTargets targets).contains "folders" = true →
          (flushDebugCaches targets fc ac).newFolderCache = []
          ∧ (flushDebugCaches targets fc ac).clearedFolders = some fc.length)
        ∧ ((recognizedTargets targets).contains "folders" = false →
          (flushDebugCaches targets fc ac).newFolderCache = fc
          ∧ (flushDebugCaches targets fc ac).clearedFolders = none)
        ∧ ((recognizedTargets targets).contains "addresses" = true →
          (flushDebugCaches targets fc ac).newAddrCache = []
          ∧ (flushDebugCaches targets fc ac).clearedAddresses = some ac.length)
        ∧ ((recognizedTargets targets).contains "addresses" = false →
          (flushDebugCaches targets fc ac).newAddrCache = ac
          ∧ (flushDebugCaches targets fc ac).clearedAddresses = none)) := by
  constructor
  · intro h
    simp [flushDebugCaches, h]
  · intro h
    have hne : (recognizedTargets targets).isEmpty = false := by
      cases hcase : recognizedTargets targets with
      | nil => exact absurd hcase h
      | cons a t => rfl
    refine ⟨?_, ?_, ?_, ?_⟩ <;> intro hc <;> simp at hc <;>
      simp [flushDebugCaches, hne, hc]

/-- C10 witness: `['FOLDERS']` (case-insensitive match) clears only the folder
cache; an empty target list clears both caches and reports their sizes. -/
theorem flushDebugCaches_witness :
    (flushDebugCaches ["FOLDERS"] [("u", ⟨[], 0⟩)] [("v", ⟨[], 0⟩)]).newFolderCache = []
    ∧ (flushDebugCaches ["FOLDERS"] [("u", ⟨[], 0⟩)] [("v", ⟨[], 0⟩)]).newAddrCache = [("v", ⟨[], 0⟩)]
    ∧ (flushDebugCaches ["FOLDERS"] [("u", ⟨[], 0⟩)] [("v", ⟨[], 0⟩)]).clearedAddresses = none
    ∧ flushDebugCaches ["x", "y"] [("u", ⟨[], 0⟩)] [("v", ⟨[], 0⟩)] =
        { clearedFolders := some 1
          clearedAddresses := some 1
          newFolderCache := []
          newAddrCache := []
          targets := ["folders", "addresses"] } := by
  have h1 := (flushDebugCaches_target_selection ["FOLDERS"] [("u", ⟨[], 0⟩)] [("v", ⟨[], 0⟩)]).2
    (by decide)
  have h2 := (flushDebugCaches_target_selection ["x", "y"] [("u", ⟨[], 0⟩)] [("v", ⟨[], 0⟩)]).1
    (by decide)
  exact ⟨(h1.1 (by decide)).1, (h1.2.2.2 (by decide)).1, (h1.2.2.2 (by decide)).2, h2⟩

/-- C2 counterexample: the claim says a 401 is recovered locally *exactly
once* and a second consecutive 401 is surfaced with no further recovery.  With
`MAX_RETRIES = 2`, an `apiCall` that fails 401 twice and then succeeds is
recovered *twice*: the wrapper forces two token refreshes and returns the
third attempt's success instead of surfacing the second 401. -/
theorem handleGraphApiCall_second_recovery :
    handleGraphApiCall
      [Except.error ⟨some 401, none, none, none⟩,
       Except.error ⟨some 401, none, none, none⟩,
       Except.ok "v"]
      [Except.ok (), Except.ok ()] 0 = (Except.ok "v", 2) := by
  rfl

/-- Helper: `handleGraphApiCall` started at `retryCount` performs at most
`2 - retryCount` forced refreshes. -/
theorem handleGraphApiCall_refresh_bound (calls : List (Except GraphError String)) :
    ∀ (refreshes : List (Except GraphError Unit)) (rc : Nat),
      (handleGraphApiCall calls refreshes rc).2 ≤ 2 - rc := by
  induction calls with
  | nil => intro refreshes rc; simp [handleGraphApiCall]
  | cons c rest ih =>
    intro refreshes rc
    cases c with
    | ok v => simp [handleGraphApiCall]
    | error e =>
      simp only [handleGraphApiCall]
      by_cases h : (is401 e && decide (rc < 2)) = true
      · rw [if_pos h]
        have hrc : rc < 2 := by
          have := (Bool.and_eq_true _ _).mp h
          exact of_decide_eq_true this.2
        cases refreshes with
        | nil => simp
        | cons r rrest =>
          cases r with
          | error re => simp; omega
          | ok _ =>
            have hb := ih rrest (rc + 1)
            simp only []
            omega
      · rw [if_neg h]
        simp

/-- C2 (amended): on 401 the wrapper recovers locally up to *two* times
(`MAX_RETRIES = 2`): three consecutive 401s yield exactly two forced refreshes
and surface the third 401; no run of the wrapper performs more than two forced
refreshes; and 401 is not in `executeWithRetry`'s default retryable sets (a
pure 401 error is not retryable there). -/
theorem handleGraphApiCall_recovers_at_most_twice :
    (∀ e1 e2 e3 : GraphError, is401 e1 = true → is401 e2 = true → is401 e3 = true →
      handleGraphApiCall [Except.error e1, Except.error e2, Except.error e3]
        [Except.ok (), Except.ok ()] 0 = (Except.error e3, 2))
    ∧ (∀ (calls : List (Except GraphError String)) (refreshes : List (Except GraphError Unit)),
        (handleGraphApiCall calls refreshes 0).2 ≤ 2)
    ∧ defaultRetryableStatusCodes.contains 401 = false
    ∧ isRetryableError ⟨some 401, some "InvalidAuthenticationToken", some "Unauthorized", none⟩
        defaultRetryableStatusCodes defaultRetryableErrorCodes = false := by
  refine ⟨?_, ?_, by decide, by decide⟩
  · intro e1 e2 e3 h1 h2 h3
    simp [handleGraphApiCall, h1, h2, h3]
  · intro calls refreshes
    simpa using handleGraphApiCall_refresh_bound calls refreshes 0

/-- C2 witness: three concrete 401-shaped errors produce exactly two forced
refreshes and surface the third error. -/
theorem handleGraphApiCall_recovers_at_most_twice_witness :
    handleGraphApiCall
      [Except.error ⟨some 401, none, none, none⟩,
       Except.error ⟨none, some "InvalidAuthenticationToken", none, none⟩,
       Except.error ⟨none, none, some "Request failed: Unauthorized", none⟩]
      [Except.ok (), Except.ok ()] 0
      = (Except.error ⟨none, none, some "Request failed: Unauthorized", none⟩, 2) :=
  handleGraphApiCall_recovers_at_most_twice.1 _ _ _ (by decide) (by decide) (by decide)

/-- C3: after a successful refresh, the stored credential record keeps the
previous refresh token when the token-endpoint response omits `refresh_token`,
stores the new one when the response includes a (non-empty) one, and persists
the new access token and the new expiry — in both the Graph service and the
tasks service update paths. -/
theorem refresh_token_retention (microsoftId : String) (u : UserRecord)
    (fr te : Bool) (touch : Except String Unit) (now : Int)
    (newAT : String) (rt : Option String) (expIn : Int)
    (hneeds : (fr || te) = true) :
    (rt = none →
      (graphGetValidAccessToken microsoftId (some u) fr te touch
          (TokenEndpointResult.ok newAT rt expIn) now).2.1
        = some ⟨newAT, u.refreshToken, determineExpiryDate now expIn⟩
      ∧ (tasksGetValidAccessToken (some u) true touch
          (TokenEndpointResult.ok newAT rt expIn) now).2.1
        = some ⟨newAT, u.refreshToken, determineExpiryDate now expIn⟩)
    ∧ (∀ s : String, rt = some s → s ≠ "" →
      (graphGetValidAccessToken microsoftId (some u) fr te touch
          (TokenEndpointResult.ok newAT rt expIn) now).2.1
        = some ⟨newAT, s, determineExpiryDate now expIn⟩
      ∧ (tasksGetValidAccessToken (some u) true touch
          (TokenEndpointResult.ok newAT rt expIn) now).2.1
        = some ⟨newAT, s, determineExpiryDate now expIn⟩)
    ∧ (graphGetValidAccessToken microsoftId (some u) fr te touch
        (TokenEndpointResult.ok newAT rt expIn) now).1 = Except.ok newAT := by
  refine ⟨?_, ?_, ?_⟩
  · intro hrt
    subst hrt
    constructor
    · simp [graphGetValidAccessToken, hneeds, refreshAccessToken]
    · by_cases hu : u.refreshToken = "" <;>
        simp [tasksGetValidAccessToken, refreshAccessToken, hu]
  · intro s hrt hs
    subst hrt
    constructor
    · simp [graphGetValidAccessToken, hneeds, refreshAccessToken, hs]
    · simp [tasksGetValidAccessToken, refreshAccessToken, hs]
  · simp [graphGetValidAccessToken, hneeds, refreshAccessToken]

/-- C3 witness: concrete refreshes with an omitted and with a present
`refresh_token`. -/
theorem refresh_token_retention_witness :
    (graphGetValidAccessToken "id1" (some ⟨"oldAT", "oldRT", 0⟩) false true (Except.ok ())
        (TokenEndpointResult.ok "newAT" none 3600) 1000).2.1
      = some ⟨"newAT", "oldRT", determineExpiryDate 1000 3600⟩
    ∧ (graphGetValidAccessToken "id1" (some ⟨"oldAT", "oldRT", 0⟩) false true (Except.ok ())
        (TokenEndpointResult.ok "newAT" (some "newRT") 3600) 1000).2.1
      = some ⟨"newAT", "newRT", determineExpiryDate 1000 3600⟩ :=
  ⟨((refresh_token_retention "id1" ⟨"oldAT", "oldRT", 0⟩ false true (Except.ok ()) 1000
      "newAT" none 3600 (by decide)).1 rfl).1,
   ((refresh_token_retention "id1" ⟨"oldAT", "oldRT", 0⟩ false true (Except.ok ()) 1000
      "newAT" (some "newRT") 3600 (by decide)).2.1 "newRT" rfl (by decide)).1⟩

/-- C4 counterexample: the claim says a refresh failure that does not indicate
an invalid refresh token is surfaced as a non-terminal transient failure,
never as ReauthRequired.  In the tasks service a plain network timeout of the
refresh is surfaced as the terminal 401 `MICROSOFT_UNAUTHORIZED` error with
`requiresReauth = true`, although its message mentions neither `invalid_grant`
nor `refresh token`. -/
theorem tasks_transient_refresh_failure_becomes_reauth :
    (tasksGetValidAccessToken (some ⟨"at", "rt", 0⟩) true (Except.ok ())
        (TokenEndpointResult.networkError "connect ETIMEDOUT") 0).1
      = Except.error ⟨"Authentication required - please log in again", 401,
          "MICROSOFT_UNAUTHORIZED", true⟩
    ∧ containsSubstr "connect ETIMEDOUT" "invalid_grant" = false
    ∧ containsSubstr "connect ETIMEDOUT" "refresh token" = false := by
  refine ⟨rfl, by decide, by decide⟩

/-- C4 (amended): in the Graph service's `getValidAccessToken` a failed
refresh yields the terminal `REFRESH_TOKEN_EXPIRED` error exactly when the
failure message includes `invalid_grant` or `refresh token`, any other failure
is rethrown unchanged, and exactly one network refresh request is issued (no
automatic retry) — while in the tasks service *every* refresh failure is
surfaced as the terminal reauth-required 401, also with no retry. -/
theorem refresh_failure_classification
    (microsoftId : String) (u : UserRecord) (fr te : Bool)
    (touch : Except String Unit) (m : String) (now : Int)
    (hneeds : (fr || te) = true) :
    ((containsSubstr m "invalid_grant" || containsSubstr m "refresh token") = true →
      (graphGetValidAccessToken microsoftId (some u) fr te touch
          (TokenEndpointResult.networkError m) now).1
        = Except.error "REFRESH_TOKEN_EXPIRED: User must re-authenticate")
    ∧ ((containsSubstr m "invalid_grant" || containsSubstr m "refresh token") = false →
      (graphGetValidAccessToken microsoftId (some u) fr te touch
          (TokenEndpointResult.networkError m) now).1 = Except.error m)
    ∧ (graphGetValidAccessToken microsoftId (some u) fr te touch
        (TokenEndpointResult.networkError m) now).2.2 = 1
    ∧ (∀ resp : TokenEndpointResult, ∀ e : String,
        refreshAccessToken u.refreshToken resp = Except.error e →
        (tasksGetValidAccessToken (some u) true touch resp now).1
          = Except.error ⟨"Authentication required - please log in again", 401,
              "MICROSOFT_UNAUTHORIZED", true⟩
        ∧ (tasksGetValidAccessToken (some u) true touch resp now).2.2 = 1) := by
  refine ⟨?_, ?_, ?_, ?_⟩
  · intro h
    simp [graphGetValidAccessToken, hneeds, refreshAccessToken, h]
  · intro h
    simp [graphGetValidAccessToken, hneeds, refreshAccessToken, h]
  · simp only [graphGetValidAccessToken, hneeds, refreshAccessToken, Bool.not_true,
      Bool.false_eq_true, if_false]
    split <;> rfl
  · intro resp e herr
    simp [tasksGetValidAccessToken, herr]

/-- C4 witness: an `invalid_grant` HTTP failure becomes the terminal
`REFRESH_TOKEN_EXPIRED` error; an unrelated network failure is rethrown
unchanged after exactly one refresh request. -/
theorem refresh_failure_classification_witness :
    (graphGetValidAccessToken "id1" (some ⟨"at", "rt", 0⟩) false true (Except.ok ())
        (TokenEndpointResult.networkError "Microsoft token refresh failed: invalid_grant") 0).1
      = Except.error "REFRESH_TOKEN_EXPIRED: User must re-authenticate"
    ∧ (graphGetValidAccessToken "id1" (some ⟨"at", "rt", 0⟩) false true (Except.ok ())
        (TokenEndpointResult.networkError "socket hang up") 0).1
      = Except.error "socket hang up"
    ∧ (tasksGetValidAccessToken (some ⟨"at", "rt", 0⟩) true (Except.ok ())
        (TokenEndpointResult.networkError "socket hang up") 0).1
      = Except.error ⟨"Authentication required - please log in again", 401,
          "MICROSOFT_UNAUTHORIZED", true⟩ :=
  ⟨(refresh_failure_classification "id1" ⟨"at", "rt", 0⟩ false true (Except.ok ())
      "Microsoft token refresh failed: invalid_grant" 0 (by decide)).1 (by decide),
   (refresh_failure_classification "id1" ⟨"at", "rt", 0⟩ false true (Except.ok ())
      "socket hang up" 0 (by decide)).2.1 (by decide),
   ((refresh_failure_classification "id1" ⟨"at", "rt", 0⟩ false true (Except.ok ())
      "socket hang up" 0 (by decide)).2.2.2
      (TokenEndpointResult.networkError "socket hang up") "socket hang up" rfl).1⟩

/-- C6 counterexample: the claim says the last-used touch on the cached path is
not awaited and its failure never fails the `getValidToken` call.  The Graph
service runs `await updateLastUsed(microsoftId)` on the critical path and its
outer catch rethrows, so with a valid cached token a failing touch fails the
whole call (and no cached token is returned). -/
theorem cached_path_touch_failure_fails_call :
    graphGetValidAccessToken "id1" (some ⟨"cachedAT", "rt", 0⟩) false false
        (Except.error "db write failed") (TokenEndpointResult.networkError "unused") 0
      = (Except.error "db write failed", some ⟨"cachedAT", "rt", 0⟩, 0) := by
  rfl

/-- C6 (amended): in the Graph service the cached-token path *awaits*
`updateLastUsed`: a successful touch returns the cached token, a failing touch
propagates and fails the call (with no refresh issued in either case); in the
tasks service the touch is fire-and-forget — the result is independent of the
touch outcome and the cached token is always returned. -/
theorem cached_path_touch_semantics (microsoftId : String) (u : UserRecord)
    (resp : TokenEndpointResult) (now : Int) :
    (∀ e : String,
      graphGetValidAccessToken microsoftId (some u) false false (Except.error e) resp now
        = (Except.error e, some u, 0))
    ∧ graphGetValidAccessToken microsoftId (some u) false false (Except.ok ()) resp now
        = (Except.ok u.accessToken, some u, 0)
    ∧ (∀ t1 t2 : Except String Unit,
        tasksGetValidAccessToken (some u) false t1 resp now
          = tasksGetValidAccessToken (some u) false t2 resp now
        ∧ (tasksGetValidAccessToken (some u) false t1 resp now).1 = Except.ok u.accessToken) := by
  refine ⟨?_, rfl, ?_⟩
  · intro e; rfl
  · intro t1 t2
    exact ⟨rfl, rfl⟩

/-- C5: the delay computed by `executeWithRetry` for a retryable failure is
the Retry-After hint times 1000 ms when present (an HTTP-date hint is clamped
to ≥ 0 seconds), and otherwise `min(baseDelay·2^(attempt−1), maxDelay)` plus a
jitter `r·jitterMax` with `r ∈ [0, 1)`, which never exceeds
`maxDelay + jitterMax`. -/
theorem executeWithRetry_delay_formula (now : Int) (attempt : Nat)
    (baseDelay maxDelay jitterMax r : ℚ)
    (_hr0 : 0 ≤ r) (hr1 : r < 1) (hj : 0 ≤ jitterMax) :
    (∀ n : Nat,
      executeWithRetryDelay (RetryAfterHeader.seconds n) now attempt
          baseDelay maxDelay jitterMax r = (n : ℚ) * 1000)
    ∧ (∀ t : Int, ∃ s : Int,
        getRetryAfterSeconds (RetryAfterHeader.httpDate t) now = some s
        ∧ 0 ≤ s
        ∧ executeWithRetryDelay (RetryAfterHeader.httpDate t) now attempt
            baseDelay maxDelay jitterMax r = (s : ℚ) * 1000)
    ∧ executeWithRetryDelay RetryAfterHeader.missing now attempt
        baseDelay maxDelay jitterMax r
        = min (baseDelay * 2 ^ (attempt - 1)) maxDelay + r * jitterMax
    ∧ executeWithRetryDelay RetryAfterHeader.missing now attempt
        baseDelay maxDelay jitterMax r ≤ maxDelay + jitterMax := by
  have hjit : r * jitterMax ≤ jitterMax := by
    calc r * jitterMax ≤ 1 * jitterMax := by
          exact mul_le_mul_of_nonneg_right (le_of_lt hr1) hj
      _ = jitterMax := one_mul jitterMax
  refine ⟨?_, ?_, rfl, ?_⟩
  · intro n
    simp [executeWithRetryDelay, getRetryAfterSeconds]
  · intro t
    refine ⟨max 0 (ceilDiv (t - now) 1000), rfl, le_max_left 0 _, rfl⟩
  · have hmin : min (baseDelay * 2 ^ (attempt - 1)) maxDelay ≤ maxDelay :=
      min_le_right _ _
    calc executeWithRetryDelay RetryAfterHeader.missing now attempt
          baseDelay maxDelay jitterMax r
        = min (baseDelay * 2 ^ (attempt - 1)) maxDelay + r * jitterMax := rfl
      _ ≤ maxDelay + jitterMax := add_le_add hmin hjit

/-- C5 witness: `Retry-After: 2` yields a 2000 ms wait (≥ 2000 ms), and with
the default config (base 1000, max 32000, jitter max 1000) the hint-less
backoff delay never exceeds 33000 ms. -/
theorem executeWithRetry_delay_formula_witness :
    executeWithRetryDelay (RetryAfterHeader.seconds 2) 0 1 1000 32000 1000 (1 / 2)
      = (2 : ℚ) * 1000
    ∧ executeWithRetryDelay RetryAfterHeader.missing 0 1 1000 32000 1000 (1 / 2)
      ≤ 32000 + 1000 :=
  ⟨(executeWithRetry_delay_formula 0 1 1000 32000 1000 (1 / 2)
      (by norm_num) (by norm_num) (by norm_num)).1 2,
   (executeWithRetry_delay_formula 0 1 1000 32000 1000 (1 / 2)
      (by norm_num) (by norm_num) (by norm_num)).2.2.2⟩

/-- Helper: a successful association-list lookup returns one of the stored
values. -/
theorem lookup_mem_map_snd (l : List (String × String)) (k v : String)
    (h : l.lookup k = some v) : v ∈ l.map Prod.snd := by
  induction l with
  | nil => simp [List.lookup] at h
  | cons p t ih =>
    obtain ⟨a, b⟩ := p
    simp only [List.lookup] at h
    split at h
    · cases h
      simp
    · simp only [List.map_cons]
      exact List.mem_cons_of_mem _ (ih h)

set_option maxRecDepth 100000 in
/-- Helper: the windows-to-IANA-to-windows-to-IANA round trip collapses on
every Windows name occurring as a value of `ianaToWindowsMap`. -/
theorem roundtrip_values_check :
    (ianaToWindowsMap.map Prod.snd).all
      (fun w => convertWindowsToIANA (convertIANAToWindows (convertWindowsToIANA w))
          == convertWindowsToIANA w) = true := by
  decide

set_option maxRecDepth 100000 in
/-- Helper: the round trip collapses on the `"UTC"` fallback. -/
theorem roundtrip_utc_check :
    convertWindowsToIANA (convertIANAToWindows (convertWindowsToIANA "UTC"))
      = convertWindowsToIANA "UTC" := by
  decide

/-- C7: for every timezone name `x` (known or unknown), writing `f` for
`convertIANAToWindows` and `g` for `convertWindowsToIANA`, the round trip is
idempotent on the second application: `g (f (g (f x))) = g (f x)` — `g`
deterministically returns the first-occurrence primary IANA name for each
Windows name, so a second pass reproduces the first pass's output even though
`g (f x) = x` is not guaranteed. -/
theorem timezone_roundtrip_idempotent (x : String) :
    convertWindowsToIANA (convertIANAToWindows (convertWindowsToIANA (convertIANAToWindows x)))
      = convertWindowsToIANA (convertIANAToWindows x) := by
  have hval : convertIANAToWindows x = "UTC"
      ∨ convertIANAToWindows x ∈ ianaToWindowsMap.map Prod.snd := by
    unfold convertIANAToWindows
    by_cases hx : x = ""
    · left
      simp [hx]
    · rw [if_neg hx]
      cases hl : ianaToWindowsMap.lookup x with
      | none => left; rfl
      | some w => right; exact lookup_mem_map_snd _ _ _ hl
  rcases hval with h | h
  · rw [h]
    exact roundtrip_utc_check
  · have hb := List.all_eq_true.mp roundtrip_values_check _ h
    exact eq_of_beq hb

/-- C6 witness: on the cached path with a successful touch, the concrete
cached token is returned unchanged. -/
theorem cached_path_touch_semantics_witness :
    graphGetValidAccessToken "id1" (some ⟨"at", "rt", 0⟩) false false (Except.ok ())
        (TokenEndpointResult.networkError "x") 0
      = (Except.ok "at", some ⟨"at", "rt", 0⟩, 0) :=
  (cached_path_touch_semantics "id1" ⟨"at", "rt", 0⟩
    (TokenEndpointResult.networkError "x") 0).2.1

/-- C7 witness: the round trip at `Europe/Budapest` (whose Windows zone's
primary IANA name is `Europe/Prague`) is stable on a second application. -/
theorem timezone_roundtrip_idempotent_witness :
    convertWindowsToIANA (convertIANAToWindows
        (convertWindowsToIANA (convertIANAToWindows "Europe/Budapest")))
      = convertWindowsToIANA (convertIANAToWindows "Europe/Budapest") :=
  timezone_roundtrip_idempotent "Europe/Budapest"

/-- C8 witness: a concrete entry stored at time 1000 is still a hit one
millisecond before its TTL elapses. -/
theorem ttl_cache_lazy_expiry_witness :
    listLabelsCacheRead [("u1", ⟨["inbox"], 1000⟩)] "u1"
        (1000 + FOLDER_CACHE_TTL_MS - 1) = some ["inbox"] :=
  (ttl_cache_lazy_expiry "u1" ["inbox"] 1000).1
